import Mathlib

/-!
Shallow embedding of the party-planning backend (Express + Mongoose single
server file).  The document store is modelled as explicit lists of documents;
each route handler becomes a function from the store (and the request data)
to a response together with the new store.

Mongoose query-casting semantics embedded here (Mongoose 6 defaults, the
behaviour the code runs under):
* a filter path that is not declared in the target schema is stripped from
  the filter (`strictQuery`), so e.g. `Project.findOne({ userId, projectId })`
  becomes `findOne({})`, which returns the first document of the collection;
* a filter value that is `undefined` is dropped, so a missing Authorization
  header turns `User.findOne({ accessToken })` into `findOne({})`;
* an update path whose value is `undefined` is omitted from the update, so
  `$set: {name, due_date}` with only `name` in the body sets only `name`;
* `findByIdAndUpdate` returns the document as it was BEFORE the update
  (no `new: true` option is passed anywhere in this code);
* a `find(...)` result is an array and an array is always truthy in JS, so
  `if (result)` branches on `find` results always take the success branch.

bcrypt is modelled as an ideal salted hash: `hashSync` keeps the salt and a
digest that determines the password exactly, and `compareSync` succeeds iff
the supplied password matches the digest.  `crypto.randomBytes(n).toString`
with hex encoding is modelled by `genToken` over the raw random bytes.
-/

set_option linter.unusedVariables false

/-- JSON-like values, for response bodies and serialized documents. -/
inductive JVal where
  | jnull : JVal
  | jbool : Bool → JVal
  | jnum : Int → JVal
  | jstr : String → JVal
  | jarr : List JVal → JVal
  | jobj : List (String × JVal) → JVal
deriving Repr

open JVal

/-- An HTTP response: status code and JSON body (an object, as a field list). -/
structure Response where
  status : Nat
  body : List (String × JVal)
deriving Repr

/-- Ideal model of a bcrypt hash: the salt and a digest that determines the
password (compare succeeds iff the same password is supplied). -/
structure BHash where
  salt : Nat
  digest : String
deriving Repr, DecidableEq

/-- bcrypt.hashSync: salted hash of the password. -/
def hashSync (password : String) (salt : Nat) : BHash := ⟨salt, password⟩

/-- bcrypt.compareSync: true iff the password matches the stored hash. -/
def compareSync (password : String) (h : BHash) : Bool := h.digest == password

/-- UserSchema: email (unique, required), password hash, accessToken
(defaulted from crypto.randomBytes(128).toString with hex encoding). -/
structure User where
  id : Nat
  email : String
  password : BHash
  accessToken : String
deriving Repr, DecidableEq

/-- GuestSchema: guestName (trimmed) and phone, an embedded subdocument with
its own generated _id. -/
structure Guest where
  id : Nat
  guestName : String
  phone : Int
deriving Repr, DecidableEq

/-- ProjectSchema: name (trimmed), owning user reference `userProject`,
due_date string, creation date, embedded guest list, and the five selected
catalog arrays. -/
structure Project where
  id : Nat
  name : String
  userProject : Nat
  due_date : String
  createdAt : Nat
  guestList : List Guest
  themes : List String
  decorations : List String
  food : List String
  drinks : List String
  activities : List String
deriving Repr, DecidableEq

/-- Theme/Decoration/Food/Drink/Activity schemas: name, image, `type` tag
array (ThemeSchema has no belongs_to_themes; it is unused by the modelled
endpoints and kept empty there). -/
structure CatalogItem where
  id : Nat
  name : String
  image : String
  type : List String
  belongs_to_themes : List String
deriving Repr, DecidableEq

/-- The document store: one list per collection.  `guests` is the standalone
Guest collection (distinct from the guest lists embedded in projects); no
code path ever inserts into it. -/
structure DB where
  users : List User
  projects : List Project
  guests : List Guest
  themes : List CatalogItem
  decorations : List CatalogItem
  food : List CatalogItem
  drinks : List CatalogItem
  activities : List CatalogItem
deriving Repr, DecidableEq

/-- Fresh values consumed by one request: generated ObjectIds, the random
bytes behind the default accessToken, and the bcrypt salt. -/
structure Fresh where
  userId : Nat
  tokenBytes : List (Fin 256)
  guestId : Nat
  salt : Nat
  projectId : Nat
  now : Nat

/-- JS String.prototype.trim, executable model: strip whitespace at both
ends. -/
def isSpaceChar (c : Char) : Bool := c == ' ' || c == '\t' || c == '\n' || c == '\r'

def jsTrim (s : String) : String :=
  ⟨((s.data.dropWhile isSpaceChar).reverse.dropWhile isSpaceChar).reverse⟩

/-- JS String.prototype.toLowerCase, executable model (ASCII). -/
def jsToLower (s : String) : String := ⟨s.data.map Char.toLower⟩

/-- One hex digit (lowercase, as Node's hex encoding produces). -/
def hexDigit (n : Fin 16) : Char :=
  if n.val < 10 then Char.ofNat (48 + n.val) else Char.ofNat (87 + n.val)

/-- The two hex characters encoding one byte. -/
def byteChars (b : Fin 256) : List Char :=
  [hexDigit ⟨b.val / 16, by omega⟩, hexDigit ⟨b.val % 16, by omega⟩]

/-- crypto.randomBytes(...).toString with hex encoding: the hex string of the
drawn bytes. -/
def genToken (bs : List (Fin 256)) : String :=
  ⟨bs.flatMap byteChars⟩

/-- Serialization of an embedded guest. -/
def guestToJson (g : Guest) : JVal :=
  jobj [("_id", jnum g.id), ("guestName", jstr g.guestName), ("phone", jnum g.phone)]

/-- Serialization of a project document. -/
def projectToJson (p : Project) : JVal :=
  jobj [("_id", jnum p.id), ("name", jstr p.name), ("userProject", jnum p.userProject),
        ("due_date", jstr p.due_date), ("createdAt", jnum p.createdAt),
        ("guestList", jarr (p.guestList.map guestToJson)),
        ("themes", jarr (p.themes.map jstr)),
        ("decorations", jarr (p.decorations.map jstr)),
        ("food", jarr (p.food.map jstr)),
        ("drinks", jarr (p.drinks.map jstr)),
        ("activities", jarr (p.activities.map jstr))]

/-- Serialization of a catalog item. -/
def itemToJson (i : CatalogItem) : JVal :=
  jobj [("_id", jnum i.id), ("name", jstr i.name), ("image", jstr i.image),
        ("type", jarr (i.type.map jstr)),
        ("belongs_to_themes", jarr (i.belongs_to_themes.map jstr))]

/-- jnull for a missing document: `findByIdAndUpdate` that matched nothing. -/
def jOfOption {α : Type} (f : α → JVal) : Option α → JVal
  | some p => f p
  | none => jnull

/-- User.findOne on the Authorization header.  A missing header is
`undefined`, which mongoose drops from the filter, leaving `findOne({})`:
the first user document. -/
def findUserByToken (users : List User) (tok : Option String) : Option User :=
  match tok with
  | none => users.head?
  | some t => users.find? (fun u => u.accessToken == t)

/-- authenticateUser middleware succeeds iff some user matches the token. -/
def authOk (db : DB) (tok : Option String) : Bool :=
  (findUserByToken db.users tok).isSome

/-- The 401 body sent by authenticateUser. -/
def authFailResp : Response :=
  ⟨401, [("response", jstr "Please log in"), ("success", jbool false)]⟩

/-- POST /signUp.  The length check runs before save; an empty email fails the
`required` validation in save and the catch branch answers "Please enter an
email"; a duplicate (stored emails are lowercased) trips the unique index and
both catch branches answer "User already exists".  On success the new user is
stored with lowercased email, hashed password and a fresh random token. -/
def mkUser (fr : Fresh) (email password : String) : User :=
  { id := fr.userId, email := jsToLower email,
    password := hashSync password fr.salt,
    accessToken := genToken fr.tokenBytes }

def signUp (db : DB) (email password : String) (fr : Fresh) : Response × DB :=
  if password.length < 8 then
    (⟨400, [("response", jstr "Password must be minimum 8 characters"),
            ("success", jbool false)]⟩, db)
  else if email == "" then
    (⟨400, [("response", jstr "Please enter an email"), ("success", jbool false)]⟩, db)
  else if db.users.any (fun u => u.email == jsToLower email) then
    (⟨400, [("response", jstr "User already exists"), ("success", jbool false)]⟩, db)
  else
    let u := mkUser fr email password
    (⟨201, [("response", jobj [("email", jstr u.email),
                               ("accessToken", jstr u.accessToken),
                               ("userId", jnum u.id)]),
            ("success", jbool true)]⟩,
     { db with users := db.users ++ [u] })

/-- The one 400 body POST /signIn sends on any failed authentication, wrong
password and unknown email alike. -/
def signInFailResp : Response :=
  ⟨400, [("success", jbool false), ("response", jstr "Credentials did not match")]⟩

/-- POST /signIn: findOne({email}) (a real schema path, kept), then
bcrypt.compareSync against the stored hash. -/
def signIn (db : DB) (email password : String) : Response × DB :=
  match db.users.find? (fun u => u.email == email) with
  | some u =>
    if compareSync password u.password then
      (⟨201, [("success", jbool true),
              ("response", jobj [("userId", jnum u.id), ("email", jstr u.email),
                                 ("accessToken", jstr u.accessToken)])]⟩, db)
    else (signInFailResp, db)
  | none => (signInFailResp, db)

/-- DELETE /:userId/admin/delete.  `User.findOneAndDelete({ userId })`:
`userId` is not a UserSchema path, so the filter is stripped to `{}` and the
FIRST user document in the collection is deleted, whatever the path says. -/
def adminDelete (db : DB) (userId : Nat) (tok : Option String) : Option Response × DB :=
  if authOk db tok then
    match db.users.head? with
    | some _ =>
      (some ⟨200, [("success", jbool true), ("response", jstr "Account removed :(")]⟩,
       { db with users := db.users.tail })
    | none =>
      (some ⟨400, [("success", jbool false), ("response", jstr "User not found")]⟩, db)
  else (some authFailResp, db)

/-- GET /:userId/project-board/projects/:projectId.
`Project.find({ projectId, userProject: userId })`: `projectId` is not a
ProjectSchema path and is stripped, leaving all projects owned by the path's
user; `find` returns an array, which is always truthy, so the 404 branch is
dead code and the 200 branch always answers with that whole list. -/
def fetchOneProject (db : DB) (userId projectId : Nat) (tok : Option String) :
    Option Response × DB :=
  if authOk db tok then
    let singleProject := db.projects.filter (fun p => p.userProject == userId)
    (some ⟨200, [("response", jstr "Everything is ok"), ("success", jbool true),
                 ("data", jarr (singleProject.map projectToJson))]⟩, db)
  else (some authFailResp, db)

/-- The partial `$set` built by the PATCH handler: an update path whose body
value is `undefined` is omitted, so only provided fields are written.  The
schema `trim` setter runs on the written name. -/
def setFields (p : Project) (name? due? : Option String) : Project :=
  { p with name := (name?.map jsTrim).getD p.name,
           due_date := due?.getD p.due_date }

/-- Project.findByIdAndUpdate({_id: pid}, {$set: ...}): update the document
with matching _id, returning the PRE-update document (no `new: true`). -/
def findByIdAndUpdateSet (projects : List Project) (pid : Nat)
    (name? due? : Option String) : Option Project × List Project :=
  match projects with
  | [] => (none, [])
  | p :: ps =>
    if p.id == pid then (some p, setFields p name? due? :: ps)
    else
      let r := findByIdAndUpdateSet ps pid name? due?
      (r.1, p :: r.2)

/-- PATCH /:userId/project-board/projects/:projectId.  This route is
registered WITHOUT the authenticateUser middleware, so `tok` is carried but
never consulted.  The guard `Project.findOne({ userId, projectId })` has both
paths stripped, i.e. it is `findOne({})`: any first project.  The update then
targets the real `_id`.  The 200 and 500 bodies carry no `success` field.
(After the 200 is sent the handler throws on an undefined `guestList`
variable; the update and the sent response are already final.) -/
def patchProject (db : DB) (userId projectId : Nat) (name? due? : Option String)
    (tok : Option String) : Option Response × DB :=
  match db.projects.head? with
  | some _ =>
    let r := findByIdAndUpdateSet db.projects projectId name? due?
    (some ⟨200, [("response", jstr "Updated"), ("data", jOfOption projectToJson r.1)]⟩,
     { db with projects := r.2 })
  | none => (some ⟨500, [("response", jstr "Could not update")]⟩, db)

/-- Project.findByIdAndUpdate({_id: pid}, {$push: {guestList: g}}): append the
guest to the matching project's embedded list, returning the PRE-update
document. -/
def findByIdAndPushGuest (projects : List Project) (pid : Nat) (g : Guest) :
    Option Project × List Project :=
  match projects with
  | [] => (none, [])
  | p :: ps =>
    if p.id == pid then (some p, { p with guestList := p.guestList ++ [g] } :: ps)
    else
      let r := findByIdAndPushGuest ps pid g
      (r.1, p :: r.2)

/-- POST /:userId/project-board/projects/:projectId/addGuest.  The guard
`Project.findOne({ projectId })` is stripped to `findOne({})` (any first
project); the `$push` then targets the real `_id` with a fresh embedded
guest (name trimmed by the schema setter).  The response's `data` is the
pre-update document returned by findByIdAndUpdate; the 200 and 500 bodies
carry no `success` field. -/
def addGuest (db : DB) (userId projectId : Nat) (guestName : String) (phone : Int)
    (fr : Fresh) (tok : Option String) : Option Response × DB :=
  if authOk db tok then
    match db.projects.head? with
    | some _ =>
      let g : Guest := { id := fr.guestId, guestName := jsTrim guestName, phone := phone }
      let r := findByIdAndPushGuest db.projects projectId g
      (some ⟨200, [("response", jstr "Guest added"), ("data", jOfOption projectToJson r.1)]⟩,
       { db with projects := r.2 })
    | none => (some ⟨500, [("response", jstr "Could not update")]⟩, db)
  else (some authFailResp, db)

/-- DELETE /:userId/project-board/projects/:projectId/delete/:guestId.
`Guest.findOneAndDelete({ projectId })` acts on the STANDALONE Guest
collection (which nothing ever inserts into), with `projectId` stripped from
the filter: it deletes that collection's first document, if any.  The
embedded guest lists of projects are never touched and `guestId` is never
used.  `User.find({ userId })` yields an array, always truthy, so the
condition reduces to whether a standalone guest was deleted. -/
def deleteGuest (db : DB) (userId projectId guestId : Nat) (tok : Option String) :
    Option Response × DB :=
  if authOk db tok then
    match db.guests.head? with
    | some _ =>
      (some ⟨200, [("response", jstr "Guest has been deleted"), ("success", jbool true)]⟩,
       { db with guests := db.guests.tail })
    | none =>
      (some ⟨404, [("response", jstr "Guest not found"), ("success", jbool false)]⟩, db)
  else (some authFailResp, db)

/-- GET /:userId/project-board.  `User.findOne({ userId })` is stripped to
`findOne({})`: the first user.  When it is null the handler sends NO response
at all (`if (user)` with no else). -/
def projectBoard (db : DB) (userId : Nat) (tok : Option String) :
    Option Response × DB :=
  if authOk db tok then
    match db.users.head? with
    | some _ =>
      (some ⟨200, [("response", jstr "Welcome back"), ("success", jbool true)]⟩, db)
    | none => (none, db)
  else (some authFailResp, db)

/-- Model.find({ type: t }) on a catalog collection: MongoDB equality on an
array field matches the documents whose array contains the value. -/
def findByType (coll : List CatalogItem) (t : String) : List CatalogItem :=
  coll.filter (fun i => i.type.contains t)

/-- GET /themes/type/:type.  `find` returns an array (truthy), so the
`not found` branch is dead and an empty match list is a 200 success. -/
def typeFilterThemes (db : DB) (t : String) (tok : Option String) :
    Option Response × DB :=
  if authOk db tok then
    (some ⟨200, [("response", jarr ((findByType db.themes t).map itemToJson)),
                 ("success", jbool true)]⟩, db)
  else (some authFailResp, db)

/-- GET /drinks/type/:type, same shape as the themes filter. -/
def typeFilterDrinks (db : DB) (t : String) (tok : Option String) :
    Option Response × DB :=
  if authOk db tok then
    (some ⟨200, [("response", jarr ((findByType db.drinks t).map itemToJson)),
                 ("success", jbool true)]⟩, db)
  else (some authFailResp, db)

/-- GET /decorations/type/:type, same shape as the themes filter. -/
def typeFilterDecorations (db : DB) (t : String) (tok : Option String) :
    Option Response × DB :=
  if authOk db tok then
    (some ⟨200, [("response", jarr ((findByType db.decorations t).map itemToJson)),
                 ("success", jbool true)]⟩, db)
  else (some authFailResp, db)

/-- GET /food/type/:type, same shape as the themes filter. -/
def typeFilterFood (db : DB) (t : String) (tok : Option String) :
    Option Response × DB :=
  if authOk db tok then
    (some ⟨200, [("response", jarr ((findByType db.food t).map itemToJson)),
                 ("success", jbool true)]⟩, db)
  else (some authFailResp, db)

/-- GET /activities/type/:type, same shape as the themes filter. -/
def typeFilterActivities (db : DB) (t : String) (tok : Option String) :
    Option Response × DB :=
  if authOk db tok then
    (some ⟨200, [("response", jarr ((findByType db.activities t).map itemToJson)),
                 ("success", jbool true)]⟩, db)
  else (some authFailResp, db)

/-- The five catalog collections, for the list-all endpoints. -/
inductive CollTag where
  | themesTag
  | decorationsTag
  | foodTag
  | drinksTag
  | activitiesTag

/-- The collection a tag selects. -/
def collOf (db : DB) : CollTag → List CatalogItem
  | .themesTag => db.themes
  | .decorationsTag => db.decorations
  | .foodTag => db.food
  | .drinksTag => db.drinks
  | .activitiesTag => db.activities

/-- GET /themes, /decorations, /food, /drinks, /activities: list a whole
catalog collection; the five handlers are textually identical.  (The catch
branch needs a store failure, unreachable once the connectivity middleware
passed; its body is enveloped too.) -/
def listCatalog (db : DB) (c : CollTag) (tok : Option String) :
    Option Response × DB :=
  if authOk db tok then
    (some ⟨200, [("response", jarr ((collOf db c).map itemToJson)),
                 ("success", jbool true)]⟩, db)
  else (some authFailResp, db)

/-- GET /themes/:id.  `Theme.findById(req.params.id)`: `none` models a path
segment that fails the ObjectId cast (the catch answers 400), `some i` a
well-formed id looked up in the collection.  NONE of the three bodies has a
`response` field: 200 `{success, theme}`, 404 and 400
`{success, status_code, error}`. -/
def themeById (db : DB) (id : Option Nat) (tok : Option String) :
    Option Response × DB :=
  if authOk db tok then
    match id with
    | none =>
      (some ⟨400, [("success", jbool false), ("status_code", jnum 400),
                   ("error", jstr "Invalid id")]⟩, db)
    | some i =>
      match db.themes.find? (fun item => item.id == i) with
      | some item => (some ⟨200, [("success", jbool true), ("theme", itemToJson item)]⟩, db)
      | none =>
        (some ⟨404, [("success", jbool false), ("status_code", jnum 404),
                     ("error", jstr "Id not found, try another")]⟩, db)
  else (some authFailResp, db)

/-- Serialization of a stored bcrypt hash (model artifact for the raw user
document mongoose returns). -/
def bhashToJson (h : BHash) : JVal :=
  jobj [("salt", jnum h.salt), ("digest", jstr h.digest)]

/-- Serialization of a user document. -/
def userToJson (u : User) : JVal :=
  jobj [("_id", jnum u.id), ("email", jstr u.email),
        ("password", bhashToJson u.password), ("accessToken", jstr u.accessToken)]

/-- User.findByIdAndUpdate({_id: uid}, {$set: {password}}): overwrite the
matching user's stored hash, returning the PRE-update document. -/
def findByIdAndUpdateUserPassword (users : List User) (uid : Nat) (pw : BHash) :
    Option User × List User :=
  match users with
  | [] => (none, [])
  | u :: us =>
    if u.id == uid then (some u, { u with password := pw } :: us)
    else
      let r := findByIdAndUpdateUserPassword us uid pw
      (r.1, u :: r.2)

/-- PATCH /:userId/admin/change.  `User.findOne({ userId })` has the
non-schema path stripped: the guard passes iff any user exists.  The rehash
then targets the real `_id`; `data` is the pre-update document (or null). -/
def adminChange (db : DB) (userId : Nat) (password : String) (fr : Fresh)
    (tok : Option String) : Option Response × DB :=
  if authOk db tok then
    match db.users.head? with
    | some _ =>
      let r := findByIdAndUpdateUserPassword db.users userId (hashSync password fr.salt)
      (some ⟨200, [("success", jbool true), ("data", jOfOption userToJson r.1),
                   ("response", jstr "Password changed")]⟩,
       { db with users := r.2 })
    | none =>
      (some ⟨400, [("success", jbool false), ("response", jstr "User not found")]⟩, db)
  else (some authFailResp, db)

/-- GET /:userId/project-board/projects: all projects owned by the path's
user (`userProject` is a real schema path).  The array is truthy, so the
empty-list branch is dead and the empty case is also a 200 success. -/
def listProjects (db : DB) (userId : Nat) (tok : Option String) :
    Option Response × DB :=
  if authOk db tok then
    (some ⟨200, [("response", jarr ((db.projects.filter
                    (fun p => p.userProject == userId)).map projectToJson)),
                 ("success", jbool true)]⟩, db)
  else (some authFailResp, db)

/-- POST /:userId/project-board/projects/addProject.  Validation on save:
name is required and, after the trim setter, must be 5 to 30 characters; a
failed save is answered by the catch's 400 (the error detail field of that
body is elided here, as in the other catch bodies).  due_date defaults to
the schema placeholder when absent. -/
def addProject (db : DB) (userId : Nat) (name? due? : Option String) (fr : Fresh)
    (tok : Option String) : Option Response × DB :=
  if authOk db tok then
    match name? with
    | none =>
      (some ⟨400, [("success", jbool false), ("response", jstr "Project failed to add")]⟩,
       db)
    | some n =>
      if (jsTrim n).length < 5 || 30 < (jsTrim n).length then
        (some ⟨400, [("success", jbool false),
                     ("response", jstr "Project failed to add")]⟩, db)
      else
        (some ⟨200, [("success", jbool true),
                     ("response", projectToJson
                        { id := fr.projectId, name := jsTrim n, userProject := userId,
                          due_date := due?.getD "YY-MM-DD", createdAt := fr.now,
                          guestList := [], themes := [], decorations := [], food := [],
                          drinks := [], activities := [] })]⟩,
         { db with projects := db.projects
             ++ [{ id := fr.projectId, name := jsTrim n, userProject := userId,
                   due_date := due?.getD "YY-MM-DD", createdAt := fr.now,
                   guestList := [], themes := [], decorations := [], food := [],
                   drinks := [], activities := [] }] })
  else (some authFailResp, db)

/-- DELETE /:userId/project-board/projects/delete/:projectId.
`Project.findOneAndDelete({ projectId })` has the non-schema path stripped:
it deletes the FIRST stored project, whatever the path says, and
`User.find({ userId })` is a truthy array, so the condition reduces to
whether some project was deleted. -/
def deleteProject (db : DB) (userId projectId : Nat) (tok : Option String) :
    Option Response × DB :=
  if authOk db tok then
    match db.projects.head? with
    | some _ =>
      (some ⟨200, [("response", jstr "Project has been deleted"),
                   ("success", jbool true)]⟩,
       { db with projects := db.projects.tail })
    | none =>
      (some ⟨404, [("response", jstr "Project not found"), ("success", jbool false)]⟩,
       db)
  else (some authFailResp, db)

/-- The 503 body the connectivity middleware sends for every request while
the store connection is down: no success and no response field. -/
def serverUnavailableResp : Response :=
  ⟨503, [("status_code", jnum 503), ("error", jstr "Server unavailable")]⟩

/-- The modelled requests: the full routing table of the server (every
app.get/post/patch/delete registration), with path parameters, JSON body
fields and bearer token. -/
inductive Req where
  | rootReq
  | signUpReq (email password : String)
  | signInReq (email password : String)
  | adminDeleteReq (userId : Nat) (tok : Option String)
  | adminChangeReq (userId : Nat) (password : String) (tok : Option String)
  | catalogListReq (c : CollTag) (tok : Option String)
  | themeByIdReq (id : Option Nat) (tok : Option String)
  | themesTypeReq (t : String) (tok : Option String)
  | decorationsTypeReq (t : String) (tok : Option String)
  | foodTypeReq (t : String) (tok : Option String)
  | drinksTypeReq (t : String) (tok : Option String)
  | activitiesTypeReq (t : String) (tok : Option String)
  | projectBoardReq (userId : Nat) (tok : Option String)
  | listProjectsReq (userId : Nat) (tok : Option String)
  | fetchOneReq (userId projectId : Nat) (tok : Option String)
  | addProjectReq (userId : Nat) (name? due? : Option String) (tok : Option String)
  | patchReq (userId projectId : Nat) (name? due? : Option String) (tok : Option String)
  | addGuestReq (userId projectId : Nat) (guestName : String) (phone : Int)
      (tok : Option String)
  | deleteGuestReq (userId projectId guestId : Nat) (tok : Option String)
  | deleteProjectReq (userId projectId : Nat) (tok : Option String)

/-- Route dispatch past the connectivity middleware: one request in, at most
one response out (none models a handler path that sends no response), plus
the new store.  GET / answers the endpoint listing, a raw array with no
object fields at all (in particular neither success nor response). -/
def handleRoute (db : DB) (fr : Fresh) : Req → Option Response × DB
  | .rootReq => (some ⟨200, []⟩, db)
  | .signUpReq e p => let r := signUp db e p fr; (some r.1, r.2)
  | .signInReq e p => let r := signIn db e p; (some r.1, r.2)
  | .adminDeleteReq uid tok => adminDelete db uid tok
  | .adminChangeReq uid pw tok => adminChange db uid pw fr tok
  | .catalogListReq c tok => listCatalog db c tok
  | .themeByIdReq id tok => themeById db id tok
  | .themesTypeReq t tok => typeFilterThemes db t tok
  | .decorationsTypeReq t tok => typeFilterDecorations db t tok
  | .foodTypeReq t tok => typeFilterFood db t tok
  | .drinksTypeReq t tok => typeFilterDrinks db t tok
  | .activitiesTypeReq t tok => typeFilterActivities db t tok
  | .projectBoardReq uid tok => projectBoard db uid tok
  | .listProjectsReq uid tok => listProjects db uid tok
  | .fetchOneReq uid pid tok => fetchOneProject db uid pid tok
  | .addProjectReq uid n? d? tok => addProject db uid n? d? fr tok
  | .patchReq uid pid n? d? tok => patchProject db uid pid n? d? tok
  | .addGuestReq uid pid gn ph tok => addGuest db uid pid gn ph fr tok
  | .deleteGuestReq uid pid gid tok => deleteGuest db uid pid gid tok
  | .deleteProjectReq uid pid tok => deleteProject db uid pid tok

/-- The server: the connectivity middleware answers 503 for every request
while the store is down, and dispatches to the route handlers otherwise. -/
def handle (connected : Bool) (db : DB) (fr : Fresh) (req : Req) :
    Option Response × DB :=
  if connected then handleRoute db fr req else (some serverUnavailableResp, db)

/-- Whether a JSON value is a boolean. -/
def isJBool : JVal → Bool
  | .jbool _ => true
  | _ => false

/-- The response envelope: the body has a boolean `success` field and a
`response` field. -/
def hasEnvelope (r : Response) : Bool :=
  r.body.any (fun f => f.1 == "success" && isJBool f.2) &&
  r.body.any (fun f => f.1 == "response")

/-- The routes with an unenveloped body: the root endpoint listing (a raw
array), the catalog fetch-one (all bodies past authentication lack a
response field), and the project field-update and add-guest update paths
(no success flag). -/
def isEnvelopeExemptReq : Req → Bool
  | .rootReq => true
  | .themeByIdReq .. => true
  | .patchReq .. => true
  | .addGuestReq .. => true
  | _ => false

/-- Fixture: a stored user who signed up with password1. -/
def user1 : User :=
  { id := 1, email := "anna@mail.com", password := hashSync "password1" 3,
    accessToken := "tokA" }

/-- Fixture: a second stored user. -/
def user2 : User :=
  { id := 2, email := "ben@mail.com", password := hashSync "password2" 4,
    accessToken := "tokB" }

/-- Fixture: a project owned by user1, with an empty guest list. -/
def project1 : Project :=
  { id := 10, name := "Birthday Bash", userProject := 1, due_date := "2024-05-01",
    createdAt := 100, guestList := [], themes := [], decorations := [], food := [],
    drinks := [], activities := [] }

/-- Fixture: a project owned by user2. -/
def project2 : Project :=
  { id := 20, name := "Garden Party", userProject := 2, due_date := "2024-06-01",
    createdAt := 200, guestList := [], themes := [], decorations := [], food := [],
    drinks := [], activities := [] }

/-- Fixture store: two users, their two projects, empty catalogs, and the
(always empty) standalone guests collection. -/
def dbTwo : DB :=
  { users := [user1, user2], projects := [project1, project2], guests := [],
    themes := [], decorations := [], food := [], drinks := [], activities := [] }

/-- Fixture fresh values for one request. -/
def frOne : Fresh :=
  { userId := 5, tokenBytes := [7], guestId := 99, salt := 11, projectId := 30,
    now := 300 }

/-- Fixture catalog item tagged "rustic". -/
def itemCake : CatalogItem :=
  { id := 1, name := "Cake table", image := "cake.png", type := ["rustic"],
    belongs_to_themes := ["garden"] }

/-- Fixture store with one catalog item in themes and drinks. -/
def dbCatalog : DB := { dbTwo with themes := [itemCake], drinks := [itemCake] }

/-- If authentication passed, the user collection is nonempty, so the first
user exists. -/
theorem users_head_isSome_of_authOk (db : DB) (tok : Option String)
    (h : authOk db tok = true) : db.users.head?.isSome = true := by
  cases tok with
  | none => exact h
  | some t =>
    simp only [authOk, findUserByToken] at h
    cases hu : db.users.find? (fun u => u.accessToken == t) with
    | none => rw [hu] at h; simp at h
    | some u =>
      have hm : u ∈ db.users := List.mem_of_find?_eq_some hu
      cases hl : db.users with
      | nil => rw [hl] at hm; simp at hm
      | cons a l => simp [hl]

/-- hexDigit is injective. -/
theorem hexDigit_injective : ∀ a b : Fin 16, hexDigit a = hexDigit b → a = b := by
  decide

/-- byteChars is injective. -/
theorem byteChars_injective : ∀ a b : Fin 256, byteChars a = byteChars b → a = b := by
  intro a b h
  simp [byteChars] at h
  obtain ⟨h1, h2⟩ := h
  have e1 := hexDigit_injective _ _ h1
  have e2 := hexDigit_injective _ _ h2
  have v1 : a.val / 16 = b.val / 16 := congrArg Fin.val e1
  have v2 : a.val % 16 = b.val % 16 := congrArg Fin.val e2
  exact Fin.ext (by omega)

/-- Distinct random byte draws give distinct hex tokens. -/
theorem genToken_injective : ∀ l1 l2 : List (Fin 256),
    genToken l1 = genToken l2 → l1 = l2 := by
  intro l1
  induction l1 with
  | nil =>
    intro l2 h
    cases l2 with
    | nil => rfl
    | cons b t =>
      have hd := congrArg String.data h
      simp [genToken, byteChars] at hd
  | cons a s ih =>
    intro l2 h
    cases l2 with
    | nil =>
      have hd := congrArg String.data h
      simp [genToken, byteChars] at hd
    | cons b t =>
      have hd := congrArg String.data h
      simp only [genToken, List.flatMap_cons] at hd
      simp [byteChars] at hd
      obtain ⟨h1, h2, h3⟩ := hd
      have e1 := hexDigit_injective _ _ h1
      have e2 := hexDigit_injective _ _ h2
      have v1 : a.val / 16 = b.val / 16 := congrArg Fin.val e1
      have v2 : a.val % 16 = b.val % 16 := congrArg Fin.val e2
      have hab : a = b := Fin.ext (by omega)
      have ht : s = t := ih t (congrArg String.mk h3)
      rw [hab, ht]

/-- A token generated from at least one random byte is nonempty. -/
theorem genToken_ne_empty (bs : List (Fin 256)) (h : bs ≠ []) : genToken bs ≠ "" := by
  cases bs with
  | nil => exact absurd rfl h
  | cons b t =>
    intro hc
    have hd := congrArg String.data hc
    simp [genToken, byteChars] at hd

/-- Evaluating the $set update on a store split around the first document
whose _id matches. -/
theorem findByIdAndUpdateSet_append (pre post : List Project) (p : Project)
    (pid : Nat) (n? d? : Option String)
    (hpre : ∀ q ∈ pre, q.id ≠ pid) (hp : p.id = pid) :
    findByIdAndUpdateSet (pre ++ p :: post) pid n? d?
      = (some p, pre ++ setFields p n? d? :: post) := by
  induction pre with
  | nil => simp [findByIdAndUpdateSet, hp]
  | cons q rest ih =>
    have hq : (q.id == pid) = false := by
      simpa using hpre q (by simp)
    have ihr := ih (fun r hr => hpre r (by simp [hr]))
    simp [findByIdAndUpdateSet, hq, ihr]

/-- Evaluating the $push update on a store split around the first document
whose _id matches. -/
theorem findByIdAndPushGuest_append (pre post : List Project) (p : Project)
    (pid : Nat) (g : Guest)
    (hpre : ∀ q ∈ pre, q.id ≠ pid) (hp : p.id = pid) :
    findByIdAndPushGuest (pre ++ p :: post) pid g
      = (some p, pre ++ { p with guestList := p.guestList ++ [g] } :: post) := by
  induction pre with
  | nil => simp [findByIdAndPushGuest, hp]
  | cons q rest ih =>
    have hq : (q.id == pid) = false := by
      simpa using hpre q (by simp)
    have ihr := ih (fun r hr => hpre r (by simp [hr]))
    simp [findByIdAndPushGuest, hq, ihr]

/-- A valid sign-up (password long enough, nonempty email, email not taken)
stores exactly one new user built from the fresh values. -/
theorem signUp_success (db : DB) (e p : String) (fr : Fresh)
    (hpw : 8 ≤ p.length) (he : e ≠ "")
    (hdup : ∀ u ∈ db.users, u.email ≠ jsToLower e) :
    signUp db e p fr
      = (⟨201, [("response", jobj [("email", jstr (jsToLower e)),
                                   ("accessToken", jstr (genToken fr.tokenBytes)),
                                   ("userId", jnum fr.userId)]),
                ("success", jbool true)]⟩,
         { db with users := db.users ++ [mkUser fr e p] }) := by
  have h1 : ¬ p.length < 8 := by omega
  have h2 : (e == "") = false := by simpa using he
  have h3 : db.users.any (fun u => u.email == jsToLower e) = false := by
    rw [List.any_eq_false]
    intro u hu
    simpa using hdup u hu
  simp [signUp, h1, h2, h3, mkUser]

/-- C1: refuted on the code at a concrete input.  User 1 (token "tokA")
fetches project 20, which exists but is owned by user 2.  The claim demands a
not-found result; the code answers 200 success:true, because
`Project.find({projectId, userProject})` drops the non-schema `projectId`
path and a find() array is always truthy, so the 404 branch is dead.  The
data array is user 1's complete project list, fetched project id
notwithstanding. -/
theorem c1_fetch_one_never_not_found :
    fetchOneProject dbTwo 1 20 (some "tokA")
      = (some ⟨200, [("response", jstr "Everything is ok"), ("success", jbool true),
                     ("data", jarr [projectToJson project1])]⟩, dbTwo) := rfl

/-- C2: refuted on the code at a concrete input.  Starting from a project
with an empty guest list, appending guest 99 ("Sam") and then removing it by
its identifier does NOT restore the list: the delete handler acts on the
standalone (always empty) Guest collection and never touches the embedded
list, so the project keeps the appended guest and the delete answers 404
"Guest not found". -/
theorem c2_guest_round_trip_fails :
    (deleteGuest (addGuest dbTwo 1 10 "Sam" 5551234 frOne (some "tokA")).2
        1 10 99 (some "tokA")).1
      = some ⟨404, [("response", jstr "Guest not found"), ("success", jbool false)]⟩
    ∧ (deleteGuest (addGuest dbTwo 1 10 "Sam" 5551234 frOne (some "tokA")).2
        1 10 99 (some "tokA")).2.projects.map Project.guestList
      = [[⟨99, "Sam", 5551234⟩], []]
    ∧ dbTwo.projects.map Project.guestList = [[], []] :=
  ⟨rfl, rfl, rfl⟩

/-- C3: refuted on the code at a concrete input.  The PATCH project route is
registered without the authenticateUser middleware: a request whose bearer
token ("badtoken") matches no stored user still renames project 10 and gets
200 "Updated", instead of being rejected with no state change. -/
theorem c3_patch_without_token_check_updates :
    authOk dbTwo (some "badtoken") = false
    ∧ (patchProject dbTwo 1 10 (some "Renamed Party") none (some "badtoken")).1
        = some ⟨200, [("response", jstr "Updated"), ("data", projectToJson project1)]⟩
    ∧ (patchProject dbTwo 1 10 (some "Renamed Party") none
        (some "badtoken")).2.projects.map Project.name
        = ["Renamed Party", "Garden Party"]
    ∧ dbTwo.projects.map Project.name = ["Birthday Bash", "Garden Party"] :=
  ⟨rfl, rfl, rfl, rfl⟩

/-- C5 counterexample: the add-guest response does not contain the updated
project.  Adding "Sam" to project 10 does append the guest in the store, but
the response's data field serializes the PRE-update document (guest list
still empty), which differs from the serialization of the updated project. -/
theorem c5_add_guest_returns_stale_document :
    (addGuest dbTwo 1 10 "Sam" 5551234 frOne (some "tokA")).1
      = some ⟨200, [("response", jstr "Guest added"), ("data", projectToJson project1)]⟩
    ∧ (addGuest dbTwo 1 10 "Sam" 5551234 frOne
        (some "tokA")).2.projects.map Project.guestList
      = [[⟨99, "Sam", 5551234⟩], []]
    ∧ project1.guestList = []
    ∧ projectToJson project1
        ≠ projectToJson { project1 with guestList := [⟨99, "Sam", 5551234⟩] } := by
  refine ⟨rfl, rfl, rfl, ?_⟩
  intro h
  simp [projectToJson, guestToJson, project1] at h

/-- C7 counterexample: four families of service responses lack the
`{success, response}` envelope.  The PATCH project success body has no
success field; the catalog fetch-one success body has no response field; the
root endpoint listing is a raw array with neither; and the 503 body of the
connectivity middleware has neither. -/
theorem c7_responses_without_envelope :
    (handle true dbTwo frOne (.patchReq 1 10 (some "Renamed Party") none
        (some "tokA"))).1
      = some ⟨200, [("response", jstr "Updated"), ("data", projectToJson project1)]⟩
    ∧ hasEnvelope ⟨200, [("response", jstr "Updated"),
                         ("data", projectToJson project1)]⟩ = false
    ∧ (handle true dbCatalog frOne (.themeByIdReq (some 1) (some "tokA"))).1
      = some ⟨200, [("success", jbool true), ("theme", itemToJson itemCake)]⟩
    ∧ hasEnvelope ⟨200, [("success", jbool true), ("theme", itemToJson itemCake)]⟩
      = false
    ∧ (handle true dbTwo frOne .rootReq).1 = some ⟨200, []⟩
    ∧ hasEnvelope ⟨200, []⟩ = false
    ∧ (handle false dbTwo frOne (.signInReq "anna@mail.com" "password1")).1
      = some serverUnavailableResp
    ∧ hasEnvelope serverUnavailableResp = false :=
  ⟨rfl, rfl, rfl, rfl, rfl, rfl, rfl, rfl⟩

/-- C4: the field-update endpoint overwrites exactly the provided fields of
the targeted project (the first stored project with the requested _id): a
provided name is written (trimmed by the schema setter), a provided due date
is written, an omitted field keeps its old value, and the owner, creation
timestamp, guest list and the five selected catalog arrays are untouched, as
is every other project. -/
theorem c4_patch_updates_only_provided_fields (db : DB) (uid pid : Nat)
    (tok : Option String) (pre post : List Project) (p : Project)
    (name? due? : Option String)
    (hsplit : db.projects = pre ++ p :: post)
    (hpre : ∀ q ∈ pre, q.id ≠ pid) (hp : p.id = pid)
    (hone : name? = none ∨ due? = none) :
    (patchProject db uid pid name? due? tok).2.projects
        = pre ++ setFields p name? due? :: post
    ∧ (∀ n, name? = some n → (setFields p name? due?).name = jsTrim n)
    ∧ (∀ d, due? = some d → (setFields p name? due?).due_date = d)
    ∧ (name? = none → (setFields p name? due?).name = p.name)
    ∧ (due? = none → (setFields p name? due?).due_date = p.due_date)
    ∧ (setFields p name? due?).userProject = p.userProject
    ∧ (setFields p name? due?).createdAt = p.createdAt
    ∧ (setFields p name? due?).guestList = p.guestList
    ∧ (setFields p name? due?).themes = p.themes
    ∧ (setFields p name? due?).decorations = p.decorations
    ∧ (setFields p name? due?).food = p.food
    ∧ (setFields p name? due?).drinks = p.drinks
    ∧ (setFields p name? due?).activities = p.activities := by
  obtain ⟨a, ha⟩ : ∃ a, db.projects.head? = some a := by
    rw [hsplit]; cases pre <;> exact ⟨_, rfl⟩
  refine ⟨?_, ?_, ?_, ?_, ?_, rfl, rfl, rfl, rfl, rfl, rfl, rfl, rfl⟩
  · unfold patchProject
    rw [ha]
    simp only
    rw [hsplit, findByIdAndUpdateSet_append pre post p pid name? due? hpre hp]
  · intro n hn; simp [setFields, hn]
  · intro d hd; simp [setFields, hd]
  · intro hn; simp [setFields, hn]
  · intro hd; simp [setFields, hd]

/-- C5 amended: for an authenticated request against an existing project id,
add-guest does append exactly one embedded guest (fresh id, trimmed name) to
that project's guest list, but the returned data is the project document as
it was BEFORE the append, not the updated one. -/
theorem c5_add_guest_appends_and_returns_pre_update (db : DB) (uid pid : Nat)
    (gn : String) (ph : Int) (fr : Fresh) (tok : Option String)
    (pre post : List Project) (p : Project)
    (hauth : authOk db tok = true)
    (hsplit : db.projects = pre ++ p :: post)
    (hpre : ∀ q ∈ pre, q.id ≠ pid) (hp : p.id = pid) :
    (addGuest db uid pid gn ph fr tok).1
        = some ⟨200, [("response", jstr "Guest added"), ("data", projectToJson p)]⟩
    ∧ (addGuest db uid pid gn ph fr tok).2.projects
        = pre ++ { p with guestList := p.guestList ++ [⟨fr.guestId, jsTrim gn, ph⟩] }
            :: post := by
  obtain ⟨a, ha⟩ : ∃ a, db.projects.head? = some a := by
    rw [hsplit]; cases pre <;> exact ⟨_, rfl⟩
  unfold addGuest
  rw [hauth]
  simp only [if_true]
  rw [ha]
  simp only
  rw [hsplit, findByIdAndPushGuest_append pre post p pid _ hpre hp]
  exact ⟨rfl, rfl⟩

/-- C6: sign-in answers 201 with the stored token exactly when the email
matches a stored user and the password matches that user's stored hash; any
failure, wrong password and unknown email alike, is answered with the one
fixed 400 body, so the response does not reveal whether the email exists. -/
theorem c6_sign_in_iff_match_and_uniform_failure (db : DB) (email password : String) :
    ((signIn db email password).1.status = 201 ↔
      ∃ u, db.users.find? (fun v => v.email == email) = some u
        ∧ compareSync password u.password = true)
    ∧ ((signIn db email password).1.status ≠ 201 →
        (signIn db email password).1 = signInFailResp) := by
  unfold signIn
  cases hf : db.users.find? (fun v => v.email == email) with
  | none => simp [signInFailResp]
  | some u =>
    cases hc : compareSync password u.password with
    | false => simp [hc, signInFailResp]
    | true => simp [hc]

/-- Every signUp response body carries the envelope. -/
theorem signUp_hasEnvelope (db : DB) (e p : String) (fr : Fresh) :
    hasEnvelope (signUp db e p fr).1 = true := by
  unfold signUp
  split
  · rfl
  split
  · rfl
  split
  · rfl
  · rfl

/-- Every signIn response body carries the envelope. -/
theorem signIn_hasEnvelope (db : DB) (e p : String) :
    hasEnvelope (signIn db e p).1 = true := by
  unfold signIn
  split
  · split
    · rfl
    · rfl
  · rfl

/-- Every account-delete response body carries the envelope. -/
theorem adminDelete_hasEnvelope (db : DB) (uid : Nat) (tok : Option String) :
    ∃ r, (adminDelete db uid tok).1 = some r ∧ hasEnvelope r = true := by
  unfold adminDelete
  cases hA : authOk db tok with
  | false => exact ⟨authFailResp, by simp [hA], rfl⟩
  | true =>
    cases hh : db.users.head? with
    | none =>
      exact ⟨⟨400, [("success", jbool false), ("response", jstr "User not found")]⟩,
             by simp [hA, hh], rfl⟩
    | some u =>
      exact ⟨⟨200, [("success", jbool true), ("response", jstr "Account removed :(")]⟩,
             by simp [hA, hh], rfl⟩

/-- Every fetch-one-project response body carries the envelope. -/
theorem fetchOneProject_hasEnvelope (db : DB) (uid pid : Nat) (tok : Option String) :
    ∃ r, (fetchOneProject db uid pid tok).1 = some r ∧ hasEnvelope r = true := by
  unfold fetchOneProject
  cases hA : authOk db tok with
  | false => exact ⟨authFailResp, by simp [hA], rfl⟩
  | true =>
    exact ⟨⟨200, [("response", jstr "Everything is ok"), ("success", jbool true),
                  ("data", jarr ((db.projects.filter
                      (fun p => p.userProject == uid)).map projectToJson))]⟩,
           by simp [hA], rfl⟩

/-- Every guest-delete response body carries the envelope. -/
theorem deleteGuest_hasEnvelope (db : DB) (uid pid gid : Nat) (tok : Option String) :
    ∃ r, (deleteGuest db uid pid gid tok).1 = some r ∧ hasEnvelope r = true := by
  unfold deleteGuest
  cases hA : authOk db tok with
  | false => exact ⟨authFailResp, by simp [hA], rfl⟩
  | true =>
    cases hh : db.guests.head? with
    | none =>
      exact ⟨⟨404, [("response", jstr "Guest not found"), ("success", jbool false)]⟩,
             by simp [hA, hh], rfl⟩
    | some g =>
      exact ⟨⟨200, [("response", jstr "Guest has been deleted"), ("success", jbool true)]⟩,
             by simp [hA, hh], rfl⟩

/-- Every themes type-filter response body carries the envelope. -/
theorem typeFilterThemes_hasEnvelope (db : DB) (t : String) (tok : Option String) :
    ∃ r, (typeFilterThemes db t tok).1 = some r ∧ hasEnvelope r = true := by
  unfold typeFilterThemes
  cases hA : authOk db tok with
  | false => exact ⟨authFailResp, by simp [hA], rfl⟩
  | true =>
    exact ⟨⟨200, [("response", jarr ((findByType db.themes t).map itemToJson)),
                  ("success", jbool true)]⟩,
           by simp [hA], rfl⟩

/-- Every drinks type-filter response body carries the envelope. -/
theorem typeFilterDrinks_hasEnvelope (db : DB) (t : String) (tok : Option String) :
    ∃ r, (typeFilterDrinks db t tok).1 = some r ∧ hasEnvelope r = true := by
  unfold typeFilterDrinks
  cases hA : authOk db tok with
  | false => exact ⟨authFailResp, by simp [hA], rfl⟩
  | true =>
    exact ⟨⟨200, [("response", jarr ((findByType db.drinks t).map itemToJson)),
                  ("success", jbool true)]⟩,
           by simp [hA], rfl⟩

/-- Every project-board response body carries the envelope, and one is always
sent (the handler's silent branch needs a store with no user, impossible once
authentication passed). -/
theorem projectBoard_hasEnvelope (db : DB) (uid : Nat) (tok : Option String) :
    ∃ r, (projectBoard db uid tok).1 = some r ∧ hasEnvelope r = true := by
  unfold projectBoard
  cases hA : authOk db tok with
  | false => exact ⟨authFailResp, by simp [hA], rfl⟩
  | true =>
    obtain ⟨u, hu⟩ := Option.isSome_iff_exists.mp (users_head_isSome_of_authOk db tok hA)
    exact ⟨⟨200, [("response", jstr "Welcome back"), ("success", jbool true)]⟩,
           by simp [hA, hu], rfl⟩

/-- Every decorations type-filter response body carries the envelope. -/
theorem typeFilterDecorations_hasEnvelope (db : DB) (t : String)
    (tok : Option String) :
    ∃ r, (typeFilterDecorations db t tok).1 = some r ∧ hasEnvelope r = true := by
  unfold typeFilterDecorations
  cases hA : authOk db tok with
  | false => exact ⟨authFailResp, by simp [hA], rfl⟩
  | true =>
    exact ⟨⟨200, [("response", jarr ((findByType db.decorations t).map itemToJson)),
                  ("success", jbool true)]⟩,
           by simp [hA], rfl⟩

/-- Every food type-filter response body carries the envelope. -/
theorem typeFilterFood_hasEnvelope (db : DB) (t : String) (tok : Option String) :
    ∃ r, (typeFilterFood db t tok).1 = some r ∧ hasEnvelope r = true := by
  unfold typeFilterFood
  cases hA : authOk db tok with
  | false => exact ⟨authFailResp, by simp [hA], rfl⟩
  | true =>
    exact ⟨⟨200, [("response", jarr ((findByType db.food t).map itemToJson)),
                  ("success", jbool true)]⟩,
           by simp [hA], rfl⟩

/-- Every activities type-filter response body carries the envelope. -/
theorem typeFilterActivities_hasEnvelope (db : DB) (t : String)
    (tok : Option String) :
    ∃ r, (typeFilterActivities db t tok).1 = some r ∧ hasEnvelope r = true := by
  unfold typeFilterActivities
  cases hA : authOk db tok with
  | false => exact ⟨authFailResp, by simp [hA], rfl⟩
  | true =>
    exact ⟨⟨200, [("response", jarr ((findByType db.activities t).map itemToJson)),
                  ("success", jbool true)]⟩,
           by simp [hA], rfl⟩

/-- Every catalog list-all response body carries the envelope. -/
theorem listCatalog_hasEnvelope (db : DB) (c : CollTag) (tok : Option String) :
    ∃ r, (listCatalog db c tok).1 = some r ∧ hasEnvelope r = true := by
  unfold listCatalog
  cases hA : authOk db tok with
  | false => exact ⟨authFailResp, by simp [hA], rfl⟩
  | true =>
    exact ⟨⟨200, [("response", jarr ((collOf db c).map itemToJson)),
                  ("success", jbool true)]⟩,
           by simp [hA], rfl⟩

/-- Every password-change response body carries the envelope. -/
theorem adminChange_hasEnvelope (db : DB) (uid : Nat) (pw : String) (fr : Fresh)
    (tok : Option String) :
    ∃ r, (adminChange db uid pw fr tok).1 = some r ∧ hasEnvelope r = true := by
  unfold adminChange
  cases hA : authOk db tok with
  | false => exact ⟨authFailResp, by simp [hA], rfl⟩
  | true =>
    cases hh : db.users.head? with
    | none =>
      exact ⟨⟨400, [("success", jbool false), ("response", jstr "User not found")]⟩,
             by simp [hA, hh], rfl⟩
    | some u =>
      exact ⟨⟨200, [("success", jbool true),
                    ("data", jOfOption userToJson
                      (findByIdAndUpdateUserPassword db.users uid
                        (hashSync pw fr.salt)).1),
                    ("response", jstr "Password changed")]⟩,
             by simp [hA, hh], rfl⟩

/-- Every project-list response body carries the envelope. -/
theorem listProjects_hasEnvelope (db : DB) (uid : Nat) (tok : Option String) :
    ∃ r, (listProjects db uid tok).1 = some r ∧ hasEnvelope r = true := by
  unfold listProjects
  cases hA : authOk db tok with
  | false => exact ⟨authFailResp, by simp [hA], rfl⟩
  | true =>
    exact ⟨⟨200, [("response", jarr ((db.projects.filter
                      (fun p => p.userProject == uid)).map projectToJson)),
                  ("success", jbool true)]⟩,
           by simp [hA], rfl⟩

/-- Every project-create response body carries the envelope. -/
theorem addProject_hasEnvelope (db : DB) (uid : Nat) (n? d? : Option String)
    (fr : Fresh) (tok : Option String) :
    ∃ r, (addProject db uid n? d? fr tok).1 = some r ∧ hasEnvelope r = true := by
  unfold addProject
  cases hA : authOk db tok with
  | false => exact ⟨authFailResp, by simp [hA], rfl⟩
  | true =>
    cases n? with
    | none =>
      exact ⟨⟨400, [("success", jbool false),
                    ("response", jstr "Project failed to add")]⟩,
             by simp [hA], rfl⟩
    | some n =>
      cases hL : ((jsTrim n).length < 5 || 30 < (jsTrim n).length) with
      | true =>
        exact ⟨⟨400, [("success", jbool false),
                      ("response", jstr "Project failed to add")]⟩,
               by simp [hA, hL], rfl⟩
      | false =>
        exact ⟨⟨200, [("success", jbool true),
                      ("response", projectToJson
                         { id := fr.projectId, name := jsTrim n, userProject := uid,
                           due_date := d?.getD "YY-MM-DD", createdAt := fr.now,
                           guestList := [], themes := [], decorations := [],
                           food := [], drinks := [], activities := [] })]⟩,
               by simp [hA, hL], rfl⟩

/-- Every project-delete response body carries the envelope. -/
theorem deleteProject_hasEnvelope (db : DB) (uid pid : Nat) (tok : Option String) :
    ∃ r, (deleteProject db uid pid tok).1 = some r ∧ hasEnvelope r = true := by
  unfold deleteProject
  cases hA : authOk db tok with
  | false => exact ⟨authFailResp, by simp [hA], rfl⟩
  | true =>
    cases hh : db.projects.head? with
    | none =>
      exact ⟨⟨404, [("response", jstr "Project not found"), ("success", jbool false)]⟩,
             by simp [hA, hh], rfl⟩
    | some p =>
      exact ⟨⟨200, [("response", jstr "Project has been deleted"),
                    ("success", jbool true)]⟩,
             by simp [hA, hh], rfl⟩

/-- C7 amended: while the store is connected, every response of the full
routing table carries the `{success, response}` envelope and every handled
request receives exactly one response, except the exempt routes: the root
endpoint listing (a raw array), the catalog fetch-one endpoint (its bodies
past authentication lack the response field), and the project field-update
and add-guest endpoints (their update-path bodies lack the success flag); a
disconnected store answers every request with the unenveloped 503 body. -/
theorem c7_envelope_outside_exempt_routes (db : DB) (fr : Fresh) (req : Req)
    (h : isEnvelopeExemptReq req = false) :
    ∃ r, (handle true db fr req).1 = some r ∧ hasEnvelope r = true := by
  cases req with
  | rootReq => simp [isEnvelopeExemptReq] at h
  | signUpReq e p => exact ⟨(signUp db e p fr).1, rfl, signUp_hasEnvelope db e p fr⟩
  | signInReq e p => exact ⟨(signIn db e p).1, rfl, signIn_hasEnvelope db e p⟩
  | adminDeleteReq uid tok => exact adminDelete_hasEnvelope db uid tok
  | adminChangeReq uid pw tok => exact adminChange_hasEnvelope db uid pw fr tok
  | catalogListReq c tok => exact listCatalog_hasEnvelope db c tok
  | themeByIdReq id tok => simp [isEnvelopeExemptReq] at h
  | themesTypeReq t tok => exact typeFilterThemes_hasEnvelope db t tok
  | decorationsTypeReq t tok => exact typeFilterDecorations_hasEnvelope db t tok
  | foodTypeReq t tok => exact typeFilterFood_hasEnvelope db t tok
  | drinksTypeReq t tok => exact typeFilterDrinks_hasEnvelope db t tok
  | activitiesTypeReq t tok => exact typeFilterActivities_hasEnvelope db t tok
  | projectBoardReq uid tok => exact projectBoard_hasEnvelope db uid tok
  | listProjectsReq uid tok => exact listProjects_hasEnvelope db uid tok
  | fetchOneReq uid pid tok => exact fetchOneProject_hasEnvelope db uid pid tok
  | addProjectReq uid n? d? tok => exact addProject_hasEnvelope db uid n? d? fr tok
  | patchReq uid pid n? d? tok => simp [isEnvelopeExemptReq] at h
  | addGuestReq uid pid gn ph tok => simp [isEnvelopeExemptReq] at h
  | deleteGuestReq uid pid gid tok => exact deleteGuest_hasEnvelope db uid pid gid tok
  | deleteProjectReq uid pid tok => exact deleteProject_hasEnvelope db uid pid tok

/-- C8: two valid sign-ups store exactly the two new accounts, each with the
token generated from its own random draw; the tokens are nonempty (the draw
has at least one byte; the code always draws 128) and, provided the two
random draws differ (the cryptographic freshness assumption behind
crypto.randomBytes), the two accounts' tokens differ. -/
theorem c8_signup_tokens_distinct_and_nonempty (db : DB) (e1 p1 e2 p2 : String)
    (f1 f2 : Fresh)
    (h1pw : 8 ≤ p1.length) (h1e : e1 ≠ "")
    (h1d : ∀ u ∈ db.users, u.email ≠ jsToLower e1)
    (h2pw : 8 ≤ p2.length) (h2e : e2 ≠ "")
    (h2d : ∀ u ∈ (signUp db e1 p1 f1).2.users, u.email ≠ jsToLower e2)
    (hb1 : f1.tokenBytes ≠ []) (hb2 : f2.tokenBytes ≠ [])
    (hfresh : f1.tokenBytes ≠ f2.tokenBytes) :
    (signUp (signUp db e1 p1 f1).2 e2 p2 f2).2.users
        = db.users ++ [mkUser f1 e1 p1] ++ [mkUser f2 e2 p2]
    ∧ (mkUser f1 e1 p1).accessToken ≠ ""
    ∧ (mkUser f2 e2 p2).accessToken ≠ ""
    ∧ (mkUser f1 e1 p1).accessToken ≠ (mkUser f2 e2 p2).accessToken := by
  refine ⟨?_, ?_, ?_, ?_⟩
  · rw [signUp_success db e1 p1 f1 h1pw h1e h1d]
    have h2d2 : ∀ u ∈ ({ db with users := db.users ++ [mkUser f1 e1 p1] } : DB).users,
        u.email ≠ jsToLower e2 := by
      intro u hu
      apply h2d
      rw [signUp_success db e1 p1 f1 h1pw h1e h1d]
      exact hu
    rw [signUp_success _ e2 p2 f2 h2pw h2e h2d2]
  · exact genToken_ne_empty f1.tokenBytes hb1
  · exact genToken_ne_empty f2.tokenBytes hb2
  · intro hcol
    exact hfresh (genToken_injective f1.tokenBytes f2.tokenBytes hcol)

/-- C9: filtering themes or drinks by a type tag carried by none of the
items answers 200 success:true with an empty list, not an error. -/
theorem c9_type_filter_no_match_is_empty_success (db : DB) (t : String)
    (tok : Option String) (hauth : authOk db tok = true)
    (hthemes : ∀ i ∈ db.themes, i.type.contains t = false)
    (hdrinks : ∀ i ∈ db.drinks, i.type.contains t = false) :
    typeFilterThemes db t tok
      = (some ⟨200, [("response", jarr []), ("success", jbool true)]⟩, db)
    ∧ typeFilterDrinks db t tok
      = (some ⟨200, [("response", jarr []), ("success", jbool true)]⟩, db) := by
  have h1 : findByType db.themes t = [] := by
    unfold findByType
    rw [List.filter_eq_nil_iff]
    intro i hi
    simpa using hthemes i hi
  have h2 : findByType db.drinks t = [] := by
    unfold findByType
    rw [List.filter_eq_nil_iff]
    intro i hi
    simpa using hdrinks i hi
  constructor
  · unfold typeFilterThemes
    rw [hauth, h1]
    simp
  · unfold typeFilterDrinks
    rw [hauth, h2]
    simp

/-- C10: the account-delete endpoint is independent of the userId path
parameter: any two path values give the identical response and store, and
when authentication passes the document removed is the first user of an
unrestricted lookup (the head of the user collection), whoever the path
names. -/
theorem c10_admin_delete_ignores_path_user (db : DB) (tok : Option String)
    (u1 u2 : Nat) :
    adminDelete db u1 tok = adminDelete db u2 tok
    ∧ (authOk db tok = true →
        ∃ u, db.users.head? = some u
          ∧ (adminDelete db u1 tok).2.users = db.users.tail
          ∧ (adminDelete db u1 tok).1
              = some ⟨200, [("success", jbool true),
                            ("response", jstr "Account removed :(")]⟩) := by
  refine ⟨rfl, fun h => ?_⟩
  obtain ⟨u, hu⟩ := Option.isSome_iff_exists.mp (users_head_isSome_of_authOk db tok h)
  refine ⟨u, hu, ?_, ?_⟩
  · unfold adminDelete
    rw [h, hu]
    simp
  · unfold adminDelete
    rw [h, hu]
    simp

/-- Witness for C4: renaming project 10 with no due date in the body. -/
theorem c4_patch_updates_only_provided_fields_witness :
    (patchProject dbTwo 1 10 (some " New Name ") none (some "tokA")).2.projects
      = [] ++ setFields project1 (some " New Name ") none :: [project2] :=
  (c4_patch_updates_only_provided_fields dbTwo 1 10 (some "tokA") [] [project2]
    project1 (some " New Name ") none rfl (by simp) rfl (Or.inr rfl)).1

/-- Witness for the amended C5: adding Sam to project 10. -/
theorem c5_add_guest_appends_and_returns_pre_update_witness :
    (addGuest dbTwo 1 10 "Sam" 5551234 frOne (some "tokA")).2.projects
      = [] ++ { project1 with
                  guestList := project1.guestList
                    ++ [⟨frOne.guestId, jsTrim "Sam", 5551234⟩] } :: [project2] :=
  (c5_add_guest_appends_and_returns_pre_update dbTwo 1 10 "Sam" 5551234 frOne
    (some "tokA") [] [project2] project1 rfl rfl (by simp) rfl).2

/-- Witness for C6: a wrong password on an existing email gets the fixed
failure body. -/
theorem c6_sign_in_iff_match_and_uniform_failure_witness :
    (signIn dbTwo "anna@mail.com" "wrongpass").1 = signInFailResp :=
  (c6_sign_in_iff_match_and_uniform_failure dbTwo "anna@mail.com" "wrongpass").2
    (by decide)

/-- Witness for the amended C7: a sign-in request gets one enveloped
response. -/
theorem c7_envelope_outside_exempt_routes_witness :
    ∃ r, (handle true dbTwo frOne (.signInReq "anna@mail.com" "password1")).1 = some r
      ∧ hasEnvelope r = true :=
  c7_envelope_outside_exempt_routes dbTwo frOne
    (.signInReq "anna@mail.com" "password1") rfl

/-- Witness for C8: two concrete sign-ups with distinct random draws get
distinct tokens. -/
theorem c8_signup_tokens_distinct_and_nonempty_witness :
    (mkUser frOne "carla@mail.com" "password3").accessToken
      ≠ (mkUser ⟨6, [8], 0, 12, 0, 0⟩ "dan@mail.com" "password4").accessToken :=
  (c8_signup_tokens_distinct_and_nonempty dbTwo "carla@mail.com" "password3"
    "dan@mail.com" "password4" frOne ⟨6, [8], 0, 12, 0, 0⟩
    (by decide) (by decide) (by decide)
    (by decide) (by decide) (by decide)
    (by decide) (by decide) (by decide)).2.2.2

/-- Witness for C9: filtering the catalog fixture by an absent tag. -/
theorem c9_type_filter_no_match_is_empty_success_witness :
    typeFilterThemes dbCatalog "boho" (some "tokA")
      = (some ⟨200, [("response", jarr []), ("success", jbool true)]⟩, dbCatalog) :=
  (c9_type_filter_no_match_is_empty_success dbCatalog "boho" (some "tokA")
    rfl (by decide) (by decide)).1

/-- Witness for C10: user 2's token deletes the FIRST stored user (user 1),
though the path names account 1. -/
theorem c10_admin_delete_ignores_path_user_witness :
    ∃ u, dbTwo.users.head? = some u
      ∧ (adminDelete dbTwo 1 (some "tokB")).2.users = dbTwo.users.tail
      ∧ (adminDelete dbTwo 1 (some "tokB")).1
          = some ⟨200, [("success", jbool true),
                        ("response", jstr "Account removed :(")]⟩ :=
  (c10_admin_delete_ignores_path_user dbTwo (some "tokB") 1 2).2 rfl
